import Mathlib

/-!
Shallow embedding of the Rapido corporate ride-booking backend
(ride lifecycle, role guard, audit log), together with proofs about
the embedded operations.

The repository contains two parallel trees with different Mongoose
schemas, and the embedding keeps them apart:

* the inner tree: the controllers `src/src/controllers/rideController.js`
  and `adminController.js` bind the inner models (`src/src/models`, staged
  in `src/unnamed/part_006`): a Ride schema with required fields and trim
  setters but no scheduleTime validator and no maxlength bounds, and an
  AdminAction schema whose targetType enum is `['ride','user','system']`
  (case-sensitive, so the controllers' `targetType: 'Ride'` is rejected
  at the audit write);
* the root tree: the routes in `src/unnamed/part_010`/`part_011` bind the
  root models (`src/models`): a Ride schema with the strictly-future
  scheduleTime validator, maxlength bounds, driver-rating bounds, the
  pre-save timestamp hook and the `canBeCancelled`/`canBeModified`
  methods, all of which are re-validated on every `ride.save()`.

Conventions of the embedding:
* Mongo ObjectIds are modelled as natural numbers.
* JS `Date` values are modelled as integers (milliseconds since epoch);
  "now" is passed explicitly to every operation that reads the clock.
* A Mongo collection is a Lean list; `findById` is `List.find?` on the id
  field and a single-document update rewrites the matching element.
* Fallible handlers return `Except ApiError Ride` for the response payload
  paired with the post-state of the store; a handler whose `catch` block
  answers a 500 (or forwards a thrown storage/validation error with
  `next(error)`) is modelled as `ApiError.serverError`.
* `Math.floor(Math.random() * 300)` in `createRide` is modelled by an
  explicit parameter `fareRand` ranging over naturals below 300.
-/

namespace RapidoSpec

/-- Ride status enum, shared by both Ride schemas
(`pending, approved, rejected, in_progress, completed, cancelled`). -/
inductive RideStatus
  | pending
  | approved
  | rejected
  | inProgress
  | completed
  | cancelled
deriving DecidableEq, Repr

/-- Driver sub-record of the ride schemas (the root schema has an `id`
path, the inner one does not; both have name/phone/vehicle/rating). -/
structure DriverInfo where
  driverId : Option String
  name : Option String
  phone : Option String
  vehicle : Option String
  rating : Option Nat
deriving DecidableEq, Repr

/-- A ride document, covering the union of the two Ride schemas' fields
that the modelled handlers read or write (`cancelledBy` exists only in
the root schema; neither schema has an `adminComments` path, so the
controllers' `ride.adminComments = ...` assignment is never persisted
and is not a field here). -/
structure Ride where
  rideId : Nat
  userId : Nat
  pickup : String
  drop : String
  scheduleTime : Int
  status : RideStatus
  estimatedFare : Nat
  actualFare : Option Nat
  driver : Option DriverInfo
  approvedBy : Option Nat
  approvedAt : Option Int
  rejectedBy : Option Nat
  rejectedAt : Option Int
  rejectionReason : Option String
  completedAt : Option Int
  cancellationReason : Option String
  cancelledAt : Option Int
  cancelledBy : Option Nat
  createdAt : Int
deriving DecidableEq, Repr

/-- The `details` payload the handlers attach to an audit record
(rideId/userId plus the raw request reason and comments). -/
structure ActionDetails where
  rideId : Option Nat
  userId : Option Nat
  reason : Option String
  comments : Option String
deriving DecidableEq, Repr

/-- An `AdminAction` audit document (the fields the modelled handlers
write; request metadata such as ip/user-agent is omitted). -/
structure AdminActionRec where
  adminId : Nat
  action : String
  targetType : String
  targetId : Option Nat
  details : ActionDetails
  reason : Option String
deriving DecidableEq, Repr

/-- The persistent state the modelled handlers touch: the rides
collection and the admin-action audit collection. -/
structure SysState where
  rides : List Ride
  actions : List AdminActionRec
deriving DecidableEq, Repr

/-- Error taxonomy of the API responses (404, 403, 400 precondition,
400 validation, 401, and the catch-all error path of a handler whose
save/create throws). -/
inductive ApiError
  | notFound
  | forbidden
  | invalidState
  | validationError
  | unauthorized
  | serverError
deriving DecidableEq, Repr

/-- `Ride.findById`: look a ride up by its id. -/
def findRide (rides : List Ride) (id : Nat) : Option Ride :=
  rides.find? (fun r => r.rideId == id)

/-- Persisting a modified document: replace the ride with the given id. -/
def storeRide (rides : List Ride) (id : Nat) (r' : Ride) : List Ride :=
  rides.map (fun r => if r.rideId == id then r' else r)

/-- JS `x || d` on an optional string: the default replaces both a
missing value and the (falsy) empty string. -/
def jsOrString (v : Option String) (d : String) : String :=
  match v with
  | some s => if s = "" then d else s
  | none => d

/-- JS truthiness filter on an optional string field of a request body:
an absent field and the empty string both count as not provided. -/
def truthyString (v : Option String) : Option String :=
  match v with
  | some s => if s = "" then none else some s
  | none => none

/-- The string `trim` used by the schema setters and the blank checks,
modelled directly on the character list (structurally recursive, so that
concrete instances evaluate inside proofs). -/
def trimStr (s : String) : String :=
  ⟨((s.data.dropWhile Char.isWhitespace).reverse.dropWhile Char.isWhitespace).reverse⟩

/-- The route guards `if (!reason || !reason.trim())`: blank means the
field is absent or whitespace-only. -/
def isBlank (v : Option String) : Bool :=
  match v with
  | none => true
  | some s => trimStr s == ""

/-- The root rideSchema's pre-save hook (the inner schema has none):
when the status was modified to `completed` (resp. `cancelled`) and the
corresponding timestamp is unset, stamp it with the current time. -/
def applySaveHook (statusModified : Bool) (r : Ride) (now : Int) : Ride :=
  let r1 :=
    if statusModified && r.status == RideStatus.completed && r.completedAt == none then
      { r with completedAt := some now }
    else r
  if statusModified && r1.status == RideStatus.cancelled && r1.cancelledAt == none then
    { r1 with cancelledAt := some now }
  else r1

/-! ### The inner models (`src/src/models`, staged in part_006) -/

/-- The inner AdminAction schema's `action` enum. -/
def innerAdminActionActions : List String :=
  ["approve_ride", "reject_ride", "view_rides", "view_analytics",
   "create_user", "update_user", "delete_user"]

/-- The inner AdminAction schema's `targetType` enum (case-sensitive;
it does not contain the controllers' `'Ride'`). -/
def innerAdminActionTargetTypes : List String :=
  ["ride", "user", "system"]

/-- Validation `AdminAction.create` runs against the inner schema: the
action and targetType must be members of their enums (adminId and
targetId are always supplied by the modelled handlers). When this is
false the create throws and the handler's catch path answers an error —
after any `ride.save()` that already happened. -/
def innerAdminActionValid (a : AdminActionRec) : Bool :=
  innerAdminActionActions.contains a.action
  && innerAdminActionTargetTypes.contains a.targetType

/-- The inner Ride schema's default driver sub-record: every path
defaults to null except `rating`, which defaults to 4. -/
def innerDriverDefault : DriverInfo :=
  { driverId := none, name := none, phone := none, vehicle := none,
    rating := some 4 }

/-- Request body for ride creation. A client may send `userId` and
`estimatedFare`; the inner create handler overwrites both. -/
structure CreateBody where
  userId : Option Nat
  pickup : Option String
  drop : Option String
  scheduleTime : Option Int
  estimatedFare : Option Nat
deriving DecidableEq, Repr

/-- `Ride.create` against the inner schema: userId/pickup/drop/
scheduleTime are required (strings trimmed and non-empty), there is no
scheduleTime validator and no maxlength, statuses default to `pending`,
`actualFare` defaults to 0 and the driver sub-record to rating 4. -/
def rideCreate (body : CreateBody) (now : Int) (newId : Nat) :
    Except ApiError Ride :=
  match body.userId, body.pickup, body.drop, body.scheduleTime with
  | some uid, some p, some d, some t =>
    if trimStr p != "" && trimStr d != "" then
      Except.ok
        { rideId := newId
          userId := uid
          pickup := trimStr p
          drop := trimStr d
          scheduleTime := t
          status := RideStatus.pending
          estimatedFare := body.estimatedFare.getD 0
          actualFare := some 0
          driver := some innerDriverDefault
          approvedBy := none
          approvedAt := none
          rejectedBy := none
          rejectedAt := none
          rejectionReason := none
          completedAt := none
          cancellationReason := none
          cancelledAt := none
          cancelledBy := none
          createdAt := now }
    else Except.error ApiError.validationError
  | _, _, _, _ => Except.error ApiError.validationError

/-- `createRide` of the inner ride controller: overwrite
`req.body.userId` with the caller's id and `req.body.estimatedFare` with
`Math.floor(Math.random() * 300) + 100` (the random draw is the
parameter `fareRand < 300`), then `Ride.create(req.body)` against the
inner schema — which performs no scheduleTime check. -/
def createRide (callerId : Nat) (body : CreateBody) (fareRand : Nat)
    (now : Int) (newId : Nat) : Except ApiError Ride :=
  let body' := { body with
    userId := some callerId
    estimatedFare := some (fareRand + 100) }
  rideCreate body' now newId

/-- Request body of the admin controller's approve handler (`comments`
is only recorded in the audit details: neither Ride schema has an
`adminComments` path, so that assignment is dropped on save). -/
structure ApproveBody where
  comments : Option String
deriving DecidableEq, Repr

/-- Request body of the admin controller's reject handler. -/
structure RejectBody where
  reason : Option String
  comments : Option String
deriving DecidableEq, Repr

/-- The audit record `approveRide` attempts to create: note the
capitalised `targetType: 'Ride'`. -/
def approveAuditCtrl (adminId : Nat) (r : Ride) (body : ApproveBody) :
    AdminActionRec :=
  { adminId := adminId
    action := "approve_ride"
    targetType := "Ride"
    targetId := some r.rideId
    details :=
      { rideId := some r.rideId
        userId := some r.userId
        reason := none
        comments := body.comments }
    reason := none }

/-- The document `approveRide` saves: status/approver/timestamp. -/
def approvedDocCtrl (r : Ride) (adminId : Nat) (now : Int) : Ride :=
  { r with
      status := RideStatus.approved
      approvedBy := some adminId
      approvedAt := some now }

/-- The audit record `rejectRide` attempts to create: note the
capitalised `targetType: 'Ride'`. -/
def rejectAuditCtrl (adminId : Nat) (r : Ride) (body : RejectBody) :
    AdminActionRec :=
  { adminId := adminId
    action := "reject_ride"
    targetType := "Ride"
    targetId := some r.rideId
    details :=
      { rideId := some r.rideId
        userId := some r.userId
        reason := body.reason
        comments := body.comments }
    reason := none }

/-- The document `rejectRide` saves: status/rejecter/timestamp and
`req.body.reason || 'Not approved'` (trimmed by the schema setter). -/
def rejectedDocCtrl (r : Ride) (adminId : Nat) (body : RejectBody)
    (now : Int) : Ride :=
  { r with
      status := RideStatus.rejected
      rejectedBy := some adminId
      rejectedAt := some now
      rejectionReason := some (trimStr (jsOrString body.reason "Not approved")) }

/-- `approveRide` of the admin controller: 404 when the ride is absent,
400 when its status is not `pending`; otherwise `ride.save()` persists
the approval (the inner schema has nothing left to validate on this
path), and then `AdminAction.create` with `targetType: 'Ride'` is
checked against the inner enum — it fails, so the handler's catch path
answers an error with the ride already mutated and no audit record. -/
def approveRide (st : SysState) (adminId rideId : Nat) (body : ApproveBody)
    (now : Int) : Except ApiError Ride × SysState :=
  match findRide st.rides rideId with
  | none => (Except.error ApiError.notFound, st)
  | some ride =>
    if ride.status ≠ RideStatus.pending then
      (Except.error ApiError.invalidState, st)
    else
      let ride' := approvedDocCtrl ride adminId now
      let rides' := storeRide st.rides rideId ride'
      let act := approveAuditCtrl adminId ride body
      if innerAdminActionValid act then
        (Except.ok ride', { rides := rides', actions := st.actions ++ [act] })
      else
        (Except.error ApiError.serverError, { rides := rides', actions := st.actions })

/-- `rejectRide` of the admin controller: 404 when the ride is absent,
400 when its status is not `pending`; otherwise `ride.save()` persists
the rejection with `req.body.reason || 'Not approved'`, and then
`AdminAction.create` with `targetType: 'Ride'` fails the inner enum, so
the handler errors with the ride already mutated and no audit record. -/
def rejectRide (st : SysState) (adminId rideId : Nat) (body : RejectBody)
    (now : Int) : Except ApiError Ride × SysState :=
  match findRide st.rides rideId with
  | none => (Except.error ApiError.notFound, st)
  | some ride =>
    if ride.status ≠ RideStatus.pending then
      (Except.error ApiError.invalidState, st)
    else
      let ride' := rejectedDocCtrl ride adminId body now
      let rides' := storeRide st.rides rideId ride'
      let act := rejectAuditCtrl adminId ride body
      if innerAdminActionValid act then
        (Except.ok ride', { rides := rides', actions := st.actions ++ [act] })
      else
        (Except.error ApiError.serverError, { rides := rides', actions := st.actions })

/-- Query string of `GET /api/rides`. The handler reads only
status/startDate/endDate; `userId` models a requested owner filter,
which the handler never reads. -/
structure RideQuery where
  status : Option RideStatus
  startDate : Option Int
  endDate : Option Int
  userId : Option Nat
deriving DecidableEq, Repr

/-- The Mongo filter built by `getUserRides`: owner is forced to the
caller, then optional status and scheduleTime range filters. -/
def matchesUserQuery (callerId : Nat) (q : RideQuery) (r : Ride) : Bool :=
  r.userId == callerId
  && (match q.status with
      | none => true
      | some s => r.status == s)
  && (match q.startDate with
      | none => true
      | some d => decide (d ≤ r.scheduleTime))
  && (match q.endDate with
      | none => true
      | some d => decide (r.scheduleTime ≤ d))

/-- The sort key `.sort(\x7b createdAt: -1 \x7d)`: newest first. -/
def newestFirst (a b : Ride) : Bool :=
  decide (b.createdAt ≤ a.createdAt)

/-- `getUserRides` of the ride controller: rides of the caller matching
the optional status/date filters, ordered by `createdAt` descending. -/
def getUserRides (callerId : Nat) (q : RideQuery) (rides : List Ride) :
    List Ride :=
  (rides.filter (matchesUserQuery callerId q)).mergeSort newestFirst

/-- Request body of the ride update handler (only these three fields are
ever copied into the update). -/
structure UpdateBody where
  pickup : Option String
  drop : Option String
  scheduleTime : Option Int
deriving DecidableEq, Repr

/-- Apply the allowed-field updates (`pickup`, `drop`, `scheduleTime`)
that survive the JS truthiness check, with the inner schema's trim
setter. -/
def applyUpdates (r : Ride) (body : UpdateBody) : Ride :=
  let r1 := match truthyString body.pickup with
    | none => r
    | some s => { r with pickup := trimStr s }
  let r2 := match truthyString body.drop with
    | none => r1
    | some s => { r1 with drop := trimStr s }
  match body.scheduleTime with
  | none => r2
  | some t => { r2 with scheduleTime := t }

/-- `updateRide` of the inner ride controller: 404 when absent, 403 when
the caller is not the owner, 400 when status is not `pending`; otherwise
`findByIdAndUpdate` with only pickup/drop/scheduleTime. Its
`runValidators: true` runs against the inner schema, which has no
scheduleTime validator and no maxlength, so every truthy update value is
accepted — including a scheduleTime in the past. -/
def updateRide (st : SysState) (callerId rideId : Nat) (body : UpdateBody) :
    Except ApiError Ride × SysState :=
  match findRide st.rides rideId with
  | none => (Except.error ApiError.notFound, st)
  | some ride =>
    if ride.userId ≠ callerId then
      (Except.error ApiError.forbidden, st)
    else if ride.status ≠ RideStatus.pending then
      (Except.error ApiError.invalidState, st)
    else
      let ride' := applyUpdates ride body
      (Except.ok ride', { st with rides := storeRide st.rides rideId ride' })

/-- Request body of the cancel handlers. -/
structure CancelBody where
  reason : Option String
deriving DecidableEq, Repr

/-- `cancelRide` of the inner ride controller: 404 when absent, 403 when
the caller is not the owner, 400 only when status is already `completed`
or `cancelled`; otherwise set status `cancelled`, stamp `cancelledAt`,
and record `req.body.reason || 'Cancelled by user'` (trimmed by the
schema setter); the inner schema's save has nothing left to reject. -/
def cancelRide (st : SysState) (callerId rideId : Nat) (body : CancelBody)
    (now : Int) : Except ApiError Ride × SysState :=
  match findRide st.rides rideId with
  | none => (Except.error ApiError.notFound, st)
  | some ride =>
    if ride.userId ≠ callerId then
      (Except.error ApiError.forbidden, st)
    else if ride.status = RideStatus.completed ∨ ride.status = RideStatus.cancelled then
      (Except.error ApiError.invalidState, st)
    else
      let ride' := { ride with
        status := RideStatus.cancelled
        cancelledAt := some now
        cancellationReason := some (trimStr (jsOrString body.reason "Cancelled by user")) }
      (Except.ok ride', { st with rides := storeRide st.rides rideId ride' })

/-- Root `rideSchema.methods.canBeCancelled`:
`['pending', 'approved'].includes(this.status)`. -/
def canBeCancelled (r : Ride) : Bool :=
  r.status == RideStatus.pending || r.status == RideStatus.approved

/-- Root `rideSchema.methods.canBeModified`: `this.status === 'pending'`. -/
def canBeModified (r : Ride) : Bool :=
  r.status == RideStatus.pending

/-! ### The root models and routes (part_010/part_011, `src/models`) -/

/-- The root rideSchema's string constraints on pickup/drop: required
(nonempty after the trim setter) and at most 200 characters. -/
def validLocation (s : String) : Bool :=
  trimStr s != "" && decide ((trimStr s).length ≤ 200)

/-- Root schema driver-rating constraint: when a rating is present it
must lie within 1..5. -/
def ratingOk (d : Option DriverInfo) : Bool :=
  match d with
  | none => true
  | some di =>
    match di.rating with
    | none => true
    | some n => decide (1 ≤ n) && decide (n ≤ 5)

/-- Full-document validation the root schema runs on every
`ride.save()` (Mongoose validates all paths, not only modified ones):
required/bounded locations, the strictly-future scheduleTime validator
re-evaluated at save time, the 500-character bounds on the rejection and
cancellation reasons, and the driver-rating range. A failing save throws
inside the route's try block, which answers a 500 with the store
unchanged. -/
def rootSaveValid (r : Ride) (now : Int) : Bool :=
  r.pickup != "" && decide (r.pickup.length ≤ 200)
  && r.drop != "" && decide (r.drop.length ≤ 200)
  && decide (now < r.scheduleTime)
  && (match r.rejectionReason with
      | none => true
      | some s => decide (s.length ≤ 500))
  && (match r.cancellationReason with
      | none => true
      | some s => decide (s.length ≤ 500))
  && ratingOk r.driver

/-- The `validateRideCreation` middleware: pickup/drop trimmed nonempty
and at most 200 characters, scheduleTime present and strictly in the
future (`new Date(value) <= new Date()` throws). -/
def validateRideCreationOk (body : CreateBody) (now : Int) : Bool :=
  (match body.pickup with
   | none => false
   | some p => validLocation p)
  && (match body.drop with
      | none => false
      | some d => validLocation d)
  && (match body.scheduleTime with
      | none => false
      | some t => decide (now < t))

/-- The `validateRideUpdate` middleware: each optional field, when
present, must pass the same checks; in particular a supplied
scheduleTime must be strictly in the future. -/
def validateRideUpdateOk (body : UpdateBody) (now : Int) : Bool :=
  (match body.pickup with
   | none => true
   | some p => validLocation p)
  && (match body.drop with
      | none => true
      | some d => validLocation d)
  && (match body.scheduleTime with
      | none => true
      | some t => decide (now < t))

/-- `Ride.create` against the root schema: required trimmed nonempty
locations of at most 200 characters and the strictly-future
scheduleTime validator; root defaults (null actualFare and driver). -/
def rideCreateRoot (body : CreateBody) (now : Int) (newId : Nat) :
    Except ApiError Ride :=
  match body.userId, body.pickup, body.drop, body.scheduleTime with
  | some uid, some p, some d, some t =>
    if validLocation p && validLocation d && decide (now < t) then
      Except.ok
        { rideId := newId
          userId := uid
          pickup := trimStr p
          drop := trimStr d
          scheduleTime := t
          status := RideStatus.pending
          estimatedFare := body.estimatedFare.getD 0
          actualFare := none
          driver := none
          approvedBy := none
          approvedAt := none
          rejectedBy := none
          rejectedAt := none
          rejectionReason := none
          completedAt := none
          cancellationReason := none
          cancelledAt := none
          cancelledBy := none
          createdAt := now }
    else Except.error ApiError.validationError
  | _, _, _, _ => Except.error ApiError.validationError

/-- The root create route `POST /rides` (part_011): the
`validateRideCreation` middleware runs first, then the handler spreads
the body with the caller's id and calls the root `Ride.create` (which
re-checks the same constraints); it does not overwrite the client's
estimatedFare. -/
def createRideRoute (callerId : Nat) (body : CreateBody) (now : Int)
    (newId : Nat) : Except ApiError Ride :=
  if validateRideCreationOk body now then
    rideCreateRoot { body with userId := some callerId } now newId
  else Except.error ApiError.validationError

/-- The document the part_011 cancel route saves: status `cancelled`,
trimmed reason, canceller and timestamp, then the root pre-save hook. -/
def cancelledDocRoute (r : Ride) (callerId : Nat) (reason : String)
    (now : Int) : Ride :=
  applySaveHook true
    { r with
        status := RideStatus.cancelled
        cancellationReason := some (trimStr reason)
        cancelledBy := some callerId
        cancelledAt := some now } now

/-- The part_011 cancel route `PATCH /rides/:id/cancel`: a blank reason
is rejected first (400), then 404 on a missing ride, 403 on a foreign
ride, 400 unless `canBeCancelled()` (only pending or approved); then
`ride.save()` re-validates the whole document against the root schema —
a failing save (overlong reason, scheduleTime no longer future, ...)
makes the route answer 500 with the store unchanged. -/
def cancelRideRoute (st : SysState) (callerId rideId : Nat)
    (body : CancelBody) (now : Int) : Except ApiError Ride × SysState :=
  if isBlank body.reason then
    (Except.error ApiError.validationError, st)
  else
    match findRide st.rides rideId with
    | none => (Except.error ApiError.notFound, st)
    | some ride =>
      if ride.userId ≠ callerId then
        (Except.error ApiError.forbidden, st)
      else if !canBeCancelled ride then
        (Except.error ApiError.invalidState, st)
      else
        let ride' := cancelledDocRoute ride callerId (body.reason.getD "") now
        if rootSaveValid ride' now then
          (Except.ok ride', { st with rides := storeRide st.rides rideId ride' })
        else (Except.error ApiError.serverError, st)

/-- Request body of the part_010 approve route (optional driver
sub-record). -/
structure ApproveRouteBody where
  driver : Option DriverInfo
deriving DecidableEq, Repr

/-- The document the part_010 approve route saves: approval fields, the
driver sub-record when the body carries one, then the root hook. -/
def approvedDocRoute (r : Ride) (adminId : Nat) (body : ApproveRouteBody)
    (now : Int) : Ride :=
  let withApproval := { r with
    status := RideStatus.approved
    approvedBy := some adminId
    approvedAt := some now }
  let withDriver := match body.driver with
    | some d => { withApproval with driver := some d }
    | none => withApproval
  applySaveHook true withDriver now

/-- The part_010 approve route `PATCH /admin/rides/:id/approve`:
404 when absent, 400 unless `pending`; then `ride.save()` re-validates
the whole document against the root schema (driver rating within 1..5,
scheduleTime still strictly future, ...) — a failing save answers 500
with the store unchanged; on success one `approve_ride` audit record is
logged (its lowercase `targetType: 'ride'` satisfies the root enum). -/
def approveRideRoute (st : SysState) (adminId rideId : Nat)
    (body : ApproveRouteBody) (now : Int) : Except ApiError Ride × SysState :=
  match findRide st.rides rideId with
  | none => (Except.error ApiError.notFound, st)
  | some ride =>
    if ride.status ≠ RideStatus.pending then
      (Except.error ApiError.invalidState, st)
    else
      let ride' := approvedDocRoute ride adminId body now
      if rootSaveValid ride' now then
        let act : AdminActionRec :=
          { adminId := adminId
            action := "approve_ride"
            targetType := "ride"
            targetId := some ride.rideId
            details :=
              { rideId := some ride.rideId
                userId := some ride.userId
                reason := none
                comments := none }
            reason := none }
        (Except.ok ride',
          { rides := storeRide st.rides rideId ride'
            actions := st.actions ++ [act] })
      else (Except.error ApiError.serverError, st)

/-- Request body of the part_010 reject route. -/
structure RejectRouteBody where
  reason : Option String
deriving DecidableEq, Repr

/-- The part_010 reject route `PATCH /admin/rides/:id/reject`: a blank
reason is rejected first (400), then 404 on a missing ride, 400 unless
`pending`; then `ride.save()` re-validates the whole document against
the root schema (trimmed reason at most 500 characters, scheduleTime
still strictly future, ...) — a failing save answers 500 with the store
unchanged; on success one `reject_ride` audit record is logged (its
lowercase `targetType: 'ride'` satisfies the root enum). -/
def rejectRideRoute (st : SysState) (adminId rideId : Nat)
    (body : RejectRouteBody) (now : Int) : Except ApiError Ride × SysState :=
  if isBlank body.reason then
    (Except.error ApiError.validationError, st)
  else
    match findRide st.rides rideId with
    | none => (Except.error ApiError.notFound, st)
    | some ride =>
      if ride.status ≠ RideStatus.pending then
        (Except.error ApiError.invalidState, st)
      else
        let ride' := applySaveHook true
          { ride with
              status := RideStatus.rejected
              rejectedBy := some adminId
              rejectedAt := some now
              rejectionReason := some (trimStr (body.reason.getD "")) } now
        if rootSaveValid ride' now then
          let act : AdminActionRec :=
            { adminId := adminId
              action := "reject_ride"
              targetType := "ride"
              targetId := some ride.rideId
              details :=
                { rideId := some ride.rideId
                  userId := some ride.userId
                  reason := body.reason
                  comments := none }
              reason := body.reason }
          (Except.ok ride',
            { rides := storeRide st.rides rideId ride'
              actions := st.actions ++ [act] })
        else (Except.error ApiError.serverError, st)

/-! ### The access guard (`src/middleware/auth.js`) -/

/-- A user record, reduced to the fields the access guard reads. -/
structure User where
  userId : Nat
  role : String
  isActive : Bool
deriving DecidableEq, Repr

/-- Outcome of the authentication middleware. -/
inductive AuthResult
  | ok (u : User)
  | unauthorized
deriving DecidableEq, Repr

/-- JS `String.split(sep)` on the character list (structurally
recursive). -/
def splitChars (sep : Char) : List Char → List (List Char)
  | [] => [[]]
  | c :: cs =>
    let rest := splitChars sep cs
    if c = sep then [] :: rest
    else
      match rest with
      | [] => [[c]]
      | h :: t => (c :: h) :: t

/-- JS `s.split(' ')`. -/
def splitOnSpace (s : String) : List String :=
  (splitChars ' ' s.data).map (fun cs => ⟨cs⟩)

/-- Token extraction of the `authenticate` middleware: the header must
start with `Bearer`, the token is the second space-separated part
(`authorization.split(' ')[1]`), and a missing or (falsy) empty token
counts as absent. -/
def extractBearerToken (authHeader : Option String) : Option String :=
  match authHeader with
  | some h =>
    if "Bearer".data.isPrefixOf h.data then
      match (splitOnSpace h)[1]? with
      | some t => if t = "" then none else some t
      | none => none
    else none
  | none => none

/-- The `authenticate` middleware: 401 when no token is presented, when
`jwt.verify` fails (modelled by the partial map `verify`), when the
decoded id matches no user, or when the user is inactive; otherwise the
resolved user is attached to the request. -/
def authenticate (users : List User) (verify : String → Option Nat)
    (authHeader : Option String) : AuthResult :=
  match extractBearerToken authHeader with
  | none => AuthResult.unauthorized
  | some token =>
    match verify token with
    | none => AuthResult.unauthorized
    | some uid =>
      match users.find? (fun u => u.userId == uid) with
      | none => AuthResult.unauthorized
      | some u =>
        if u.isActive then AuthResult.ok u else AuthResult.unauthorized

/-- Outcome of the role-authorization middleware. -/
inductive AuthzResult
  | ok
  | unauthorized
  | forbidden
deriving DecidableEq, Repr

/-- The `authorize(...roles)` middleware: 401 when no user was attached,
403 when the caller's role is not among the required roles. -/
def authorize (roles : List String) (reqUser : Option User) : AuthzResult :=
  match reqUser with
  | none => AuthzResult.unauthorized
  | some u =>
    if roles.contains u.role then AuthzResult.ok else AuthzResult.forbidden

/-! ### Concrete fixtures used by witnesses and counterexamples -/

/-- A baseline pending ride owned by user 7, created at time 10 and
scheduled for time 200. -/
def baseRide : Ride :=
  { rideId := 1
    userId := 7
    pickup := "Tech Park"
    drop := "Airport"
    scheduleTime := 200
    status := RideStatus.pending
    estimatedFare := 250
    actualFare := none
    driver := none
    approvedBy := none
    approvedAt := none
    rejectedBy := none
    rejectedAt := none
    rejectionReason := none
    completedAt := none
    cancellationReason := none
    cancelledAt := none
    cancelledBy := none
    createdAt := 10 }

/-- A store with one pending ride. -/
def stPending : SysState :=
  { rides := [baseRide], actions := [] }

/-- A store with one already-approved ride. -/
def stApproved : SysState :=
  { rides := [{ baseRide with status := RideStatus.approved }], actions := [] }

/-- A store with one already-rejected ride. -/
def stRejected : SysState :=
  { rides := [{ baseRide with status := RideStatus.rejected }], actions := [] }

/-- A store with one completed ride. -/
def stCompleted : SysState :=
  { rides := [{ baseRide with status := RideStatus.completed }], actions := [] }

/-- The ride of `stRejected` after the inner controller cancel at
time 100. -/
def cancelled2 : Ride :=
  { baseRide with
      status := RideStatus.cancelled
      cancelledAt := some 100
      cancellationReason := some "plans changed" }

/-- The document the inner controller reject persists for the ride of
`stPending` (admin 9, time 100, no reason supplied) before the audit
write fails. -/
def rejected1 : Ride :=
  { baseRide with
      status := RideStatus.rejected
      rejectedBy := some 9
      rejectedAt := some 100
      rejectionReason := some "Not approved" }

/-- The ride of `stPending` after an edit that moves the scheduleTime
into the past (time 50, before "now" = 100). -/
def pastEdited : Ride :=
  { baseRide with scheduleTime := 50 }

/-- The document the inner controller approve persists for the ride of
`stPending` (admin 9, time 100) before the audit write fails. -/
def approved1 : Ride :=
  { baseRide with
      status := RideStatus.approved
      approvedBy := some 9
      approvedAt := some 100 }

/-- The audit record the inner controller approve attempts to create:
its `targetType` is the capitalised `'Ride'`, outside the inner enum. -/
def act1 : AdminActionRec :=
  { adminId := 9
    action := "approve_ride"
    targetType := "Ride"
    targetId := some 1
    details := { rideId := some 1, userId := some 7, reason := none, comments := none }
    reason := none }

/-- A concrete valid driver sub-record (rating 5). -/
def driver1 : DriverInfo :=
  { driverId := some "D1"
    name := some "Ravi"
    phone := none
    vehicle := none
    rating := some 5 }

/-- A driver sub-record whose rating 6 violates the root schema's
1..5 bound. -/
def badDriver : DriverInfo :=
  { driverId := none
    name := some "X"
    phone := none
    vehicle := none
    rating := some 6 }

/-- The ride of `stPending` after the part_010 route approve with
`driver1` at time 100. -/
def approvedRoute1 : Ride :=
  { baseRide with
      status := RideStatus.approved
      approvedBy := some 9
      approvedAt := some 100
      driver := some driver1 }

/-- The ride created by the inner controller in the C10 witness: caller
42, client-supplied userId 99 and fare 5 overridden, past scheduleTime
50 accepted by the inner schema. -/
def created1 : Ride :=
  { rideId := 2
    userId := 42
    pickup := "A"
    drop := "B"
    scheduleTime := 50
    status := RideStatus.pending
    estimatedFare := 107
    actualFare := some 0
    driver := some innerDriverDefault
    approvedBy := none
    approvedAt := none
    rejectedBy := none
    rejectedAt := none
    rejectionReason := none
    completedAt := none
    cancellationReason := none
    cancelledAt := none
    cancelledBy := none
    createdAt := 100 }

/-- The ride created by the inner controller at the boundary
scheduleTime = now = 100. -/
def created6 : Ride :=
  { created1 with userId := 7, scheduleTime := 100, estimatedFare := 105 }

/-! ### Theorems settling the claims -/

/-- C1, evaluated at the failing input: on a non-pending ride the admin
controller's Approve/Reject do return InvalidState with the store
untouched, but on a pending ride neither ever succeeds — the audit
record's `targetType: 'Ride'` fails the inner AdminAction enum, so after
`ride.save()` has already persisted the transition the handler errors,
leaving the ride mutated and no AdminAction behind. -/
theorem claim1_approve_reject_bug :
    approveRide stApproved 9 1 ⟨none⟩ 100 =
      (Except.error ApiError.invalidState, stApproved) ∧
    rejectRide stApproved 9 1 ⟨none, none⟩ 100 =
      (Except.error ApiError.invalidState, stApproved) ∧
    innerAdminActionValid act1 = false ∧
    (approveRide stPending 9 1 ⟨none⟩ 100).fst = Except.error ApiError.serverError ∧
    findRide (approveRide stPending 9 1 ⟨none⟩ 100).snd.rides 1 = some approved1 ∧
    (approveRide stPending 9 1 ⟨none⟩ 100).snd.actions = [] ∧
    (rejectRide stPending 9 1 ⟨none, none⟩ 100).fst = Except.error ApiError.serverError ∧
    (rejectRide stPending 9 1 ⟨none, none⟩ 100).snd.actions = [] := by
  exact ⟨rfl, rfl, rfl, rfl, rfl, rfl, rfl, rfl⟩

/-- C2 counterexample: in the inner controller's cancel handler a ride
whose status is `rejected` passes the gate (which only blocks
`completed` and `cancelled`), so it does transition to `cancelled`,
refuting "a rejected ride can never transition to cancelled". -/
theorem claim2_counterexample :
    (findRide stRejected.rides 1).map Ride.status = some RideStatus.rejected ∧
    (cancelRide stRejected 7 1 ⟨some "plans changed"⟩ 100).fst =
      Except.ok cancelled2 ∧
    cancelled2.status = RideStatus.cancelled ∧
    findRide (cancelRide stRejected 7 1 ⟨some "plans changed"⟩ 100).snd.rides 1 =
      some cancelled2 := by
  exact ⟨rfl, rfl, rfl, rfl⟩

/-- C2 amended: the inner controller's Cancel succeeds iff the ride
exists, the caller owns it, and its status is neither `completed` nor
`cancelled` — so `rejected` and `in_progress` rides can still be
cancelled there; the part_011 cancel route (gated by `canBeCancelled()`)
additionally requires a non-blank reason and that the cancelled document
pass the root schema's save-time validation (reason within 500
characters, scheduleTime still strictly future, ...); in both handlers
`completed` and `cancelled` rides can never transition to `cancelled`
and the store is left unchanged. -/
theorem claim2_cancel_gate_amended (st : SysState) (callerId rideId : Nat)
    (body : CancelBody) (now : Int) :
    ((∃ r', (cancelRide st callerId rideId body now).fst = Except.ok r') ↔
      (∃ r, findRide st.rides rideId = some r ∧ r.userId = callerId ∧
        r.status ≠ RideStatus.completed ∧ r.status ≠ RideStatus.cancelled)) ∧
    ((∃ r', (cancelRideRoute st callerId rideId body now).fst = Except.ok r') ↔
      (isBlank body.reason = false ∧ ∃ r, findRide st.rides rideId = some r ∧
        r.userId = callerId ∧ canBeCancelled r = true ∧
        rootSaveValid (cancelledDocRoute r callerId (body.reason.getD "") now) now = true)) ∧
    (∀ r, findRide st.rides rideId = some r →
      r.status = RideStatus.completed ∨ r.status = RideStatus.cancelled →
      ((cancelRide st callerId rideId body now).snd = st ∧
       (∀ r', (cancelRide st callerId rideId body now).fst ≠ Except.ok r') ∧
       (cancelRideRoute st callerId rideId body now).snd = st ∧
       (∀ r', (cancelRideRoute st callerId rideId body now).fst ≠ Except.ok r'))) := by
  refine ⟨?_, ?_, ?_⟩
  · unfold cancelRide
    cases hf : findRide st.rides rideId with
    | none => simp
    | some r =>
      by_cases ho : r.userId = callerId
      · by_cases hc : r.status = RideStatus.completed ∨ r.status = RideStatus.cancelled
        · simp [ho, hc]
          tauto
        · simp [ho, hc]
          tauto
      · simp [ho]
  · by_cases hb : isBlank body.reason = true
    · simp [cancelRideRoute, hb]
    · simp only [Bool.not_eq_true] at hb
      unfold cancelRideRoute
      rw [if_neg (by simp [hb])]
      cases hf : findRide st.rides rideId with
      | none => simp [hb]
      | some r =>
        by_cases ho : r.userId = callerId
        · by_cases hcb : canBeCancelled r = true
          · by_cases hsv :
              rootSaveValid (cancelledDocRoute r callerId (body.reason.getD "") now) now = true
            · simp [ho, hcb, hb, hsv]
            · simp [ho, hcb, hb, hsv]
          · simp [ho, hcb]
        · simp [ho]
  · intro r hf hc
    have hnb : canBeCancelled r = false := by
      unfold canBeCancelled
      rcases hc with h | h <;> simp [h]
    refine ⟨?_, ?_, ?_, ?_⟩
    · unfold cancelRide
      rw [hf]
      by_cases ho : r.userId = callerId <;> simp [ho, hc]
    · unfold cancelRide
      rw [hf]
      by_cases ho : r.userId = callerId <;> simp [ho, hc]
    · unfold cancelRideRoute
      by_cases hb : isBlank body.reason = true
      · simp [hb]
      · simp only [Bool.not_eq_true] at hb
        rw [if_neg (by simp [hb]), hf]
        by_cases ho : r.userId = callerId <;> simp [ho, hnb]
    · unfold cancelRideRoute
      by_cases hb : isBlank body.reason = true
      · simp [hb]
      · simp only [Bool.not_eq_true] at hb
        rw [if_neg (by simp [hb]), hf]
        by_cases ho : r.userId = callerId <;> simp [ho, hnb]

/-- Witness for the C2 amended theorem at a concrete store holding one
completed ride. -/
theorem claim2_witness :
    (cancelRide stCompleted 7 1 ⟨some "late"⟩ 100).snd = stCompleted ∧
    (cancelRideRoute stCompleted 7 1 ⟨some "late"⟩ 100).fst ≠
      Except.ok baseRide := by
  have h := (claim2_cancel_gate_amended stCompleted 7 1 ⟨some "late"⟩ 100).2.2
    { baseRide with status := RideStatus.completed } rfl (Or.inl rfl)
  exact ⟨h.1, h.2.2.2 baseRide⟩

/-- C3 counterexample: the admin controller's Reject accepts an absent
reason on a pending ride; the request does end in an error (the audit
write fails its enum), but not before persisting the ride as `rejected`
with the substitute default `Not approved` — the status does not remain
`pending` and a default reason is recorded, refuting the claim. -/
theorem claim3_counterexample :
    (findRide stPending.rides 1).map Ride.status = some RideStatus.pending ∧
    (rejectRide stPending 9 1 ⟨none, none⟩ 100).fst =
      Except.error ApiError.serverError ∧
    findRide (rejectRide stPending 9 1 ⟨none, none⟩ 100).snd.rides 1 =
      some rejected1 ∧
    rejected1.status = RideStatus.rejected ∧
    rejected1.rejectionReason = some "Not approved" := by
  exact ⟨rfl, rfl, rfl, rfl, rfl⟩

/-- C3 amended: the part_010 reject route does fail (ValidationError,
store unchanged, so the ride stays pending) on a blank or absent reason,
and on success it records the caller-supplied (trimmed) reason; the
admin controller's Reject, however, performs no reason check: it
persists the ride as `rejected` with the substitute default
`Not approved` and only then fails at the audit write, leaving the ride
rejected despite the error response and appending nothing to the audit
log. -/
theorem claim3_reject_reason_amended (st : SysState) (adminId rideId : Nat)
    (body : RejectRouteBody) (now : Int) :
    (isBlank body.reason = true →
      rejectRideRoute st adminId rideId body now =
        (Except.error ApiError.validationError, st)) ∧
    (∀ r' s, body.reason = some s →
      (rejectRideRoute st adminId rideId body now).fst = Except.ok r' →
      r'.rejectionReason = some (trimStr s) ∧ trimStr s ≠ "") ∧
    (∀ r, findRide st.rides rideId = some r → r.status = RideStatus.pending →
      (rejectRide st adminId rideId ⟨none, none⟩ now).fst =
        Except.error ApiError.serverError ∧
      (rejectRide st adminId rideId ⟨none, none⟩ now).snd.rides =
        storeRide st.rides rideId (rejectedDocCtrl r adminId ⟨none, none⟩ now) ∧
      (rejectedDocCtrl r adminId ⟨none, none⟩ now).status = RideStatus.rejected ∧
      (rejectedDocCtrl r adminId ⟨none, none⟩ now).rejectionReason =
        some "Not approved" ∧
      (rejectRide st adminId rideId ⟨none, none⟩ now).snd.actions = st.actions) := by
  refine ⟨?_, ?_, ?_⟩
  · intro hb
    unfold rejectRideRoute
    rw [if_pos hb]
  · intro r' s hs hok
    unfold rejectRideRoute at hok
    by_cases hb : isBlank body.reason = true
    · rw [if_pos hb] at hok
      exact absurd hok (by simp)
    · simp only [Bool.not_eq_true] at hb
      rw [if_neg (by simp [hb])] at hok
      cases hf : findRide st.rides rideId with
      | none => rw [hf] at hok; exact absurd hok (by simp)
      | some r =>
        rw [hf] at hok
        by_cases hp : r.status = RideStatus.pending
        · simp [hp, applySaveHook] at hok
          split at hok
          · simp at hok
            constructor
            · rw [← hok]
              simp [hs]
            · have hb' := hb
              rw [hs] at hb'
              simpa [isBlank] using hb'
          · simp at hok
        · simp [hp] at hok
  · intro r hf hp
    have hval : innerAdminActionValid (rejectAuditCtrl adminId r ⟨none, none⟩) = false := rfl
    unfold rejectRide
    rw [hf]
    refine ⟨?_, ?_, rfl, ?_, ?_⟩
    · simp [hp, hval]
    · simp [hp, hval]
    · show some (trimStr (jsOrString none "Not approved")) = some "Not approved"
      decide
    · simp [hp, hval]

/-- Witness for the C3 amended theorem: a whitespace-only reason is
refused by the route, while the controller persists the default
rejection and then errors. -/
theorem claim3_witness :
    rejectRideRoute stPending 9 1 ⟨some "  "⟩ 100 =
      (Except.error ApiError.validationError, stPending) ∧
    (rejectRide stPending 9 1 ⟨none, none⟩ 100).fst =
      Except.error ApiError.serverError ∧
    (rejectedDocCtrl baseRide 9 ⟨none, none⟩ 100).rejectionReason =
      some "Not approved" := by
  have h := claim3_reject_reason_amended stPending 9 1 ⟨some "  "⟩ 100
  have h3 := h.2.2 baseRide rfl rfl
  exact ⟨h.1 (by decide), h3.1, h3.2.2.2.1⟩

/-- C5, evaluated at the failing input: no approve or reject in the
admin controller ever produces an AdminAction record — the attempted
record's `targetType: 'Ride'` is outside the inner enum, so the audit
write always throws and the handler errors after mutating the ride; the
audit collection stays empty. -/
theorem claim5_audit_bug :
    innerAdminActionTargetTypes.contains "Ride" = false ∧
    innerAdminActionValid (approveAuditCtrl 9 baseRide ⟨none⟩) = false ∧
    innerAdminActionValid (rejectAuditCtrl 9 baseRide ⟨none, none⟩) = false ∧
    (approveRide stPending 9 1 ⟨none⟩ 100).fst = Except.error ApiError.serverError ∧
    (approveRide stPending 9 1 ⟨none⟩ 100).snd.actions = [] ∧
    (rejectRide stPending 9 1 ⟨none, none⟩ 100).fst = Except.error ApiError.serverError ∧
    (rejectRide stPending 9 1 ⟨none, none⟩ 100).snd.actions = [] ∧
    findRide (approveRide stPending 9 1 ⟨none⟩ 100).snd.rides 1 = some approved1 := by
  exact ⟨rfl, rfl, rfl, rfl, rfl, rfl, rfl, rfl⟩

/-- C6 counterexample: the inner ride controller accepts a scheduleTime
that is not in the future — creation at the boundary
scheduleTime = now succeeds, and an owner's edit of a pending ride to a
past scheduleTime succeeds as well, refuting "must be strictly greater
than the current time whenever it is set at creation or modified by
Edit". -/
theorem claim6_counterexample :
    createRide 7 ⟨none, some "A", some "B", some 100, none⟩ 5 100 2 =
      Except.ok created6 ∧
    created6.scheduleTime = 100 ∧
    (updateRide stPending 7 1 ⟨none, none, some 50⟩).fst =
      Except.ok pastEdited ∧
    pastEdited.scheduleTime = 50 := by
  exact ⟨rfl, rfl, rfl, rfl⟩

/-- C6 amended: the strictly-future requirement lives on the root route
path — the `validateRideCreation` and `validateRideUpdate` middleware
and the root schema's scheduleTime validator each reject
scheduleTime ≤ now (the boundary == now included), so the part_011
creation fails with a ValidationError; the inner ride controller binds
the inner schema, which has no such validator, and accepts a
scheduleTime equal to or before now at creation and at edit. -/
theorem claim6_schedule_amended (callerId : Nat) (body : CreateBody)
    (ub : UpdateBody) (now t : Int) (newId : Nat) (ht : t ≤ now) :
    (body.scheduleTime = some t →
      createRideRoute callerId body now newId =
        Except.error ApiError.validationError) ∧
    (body.scheduleTime = some t →
      rideCreateRoot body now newId = Except.error ApiError.validationError) ∧
    (ub.scheduleTime = some t → validateRideUpdateOk ub now = false) ∧
    (∀ st rideId r, findRide st.rides rideId = some r → r.userId = callerId →
      r.status = RideStatus.pending →
      (updateRide st callerId rideId ⟨none, none, some t⟩).fst =
        Except.ok (applyUpdates r ⟨none, none, some t⟩) ∧
      (applyUpdates r ⟨none, none, some t⟩).scheduleTime = t) := by
  have hdec : decide (now < t) = false := decide_eq_false (not_lt.mpr ht)
  refine ⟨?_, ?_, ?_, ?_⟩
  · intro hst
    have hmw : validateRideCreationOk body now = false := by
      unfold validateRideCreationOk
      simp [hst, hdec]
    unfold createRideRoute
    simp [hmw]
  · intro hst
    unfold rideCreateRoot
    cases hu : body.userId <;> cases hp : body.pickup <;> cases hd : body.drop <;>
      simp [hst, hdec]
  · intro hst
    unfold validateRideUpdateOk
    simp [hst, hdec]
  · intro st rideId r hf ho hp
    constructor
    · unfold updateRide
      rw [hf]
      simp [ho, hp]
    · unfold applyUpdates truthyString
      simp

/-- Witness for the C6 amended theorem at the boundary
scheduleTime = now: the root create route and the update middleware
refuse it while the inner edit succeeds. -/
theorem claim6_witness :
    createRideRoute 7 ⟨none, some "A", some "B", some 100, none⟩ 100 2 =
      Except.error ApiError.validationError ∧
    validateRideUpdateOk ⟨none, none, some 100⟩ 100 = false ∧
    (updateRide stPending 7 1 ⟨none, none, some 100⟩).fst =
      Except.ok (applyUpdates baseRide ⟨none, none, some 100⟩) := by
  have h := claim6_schedule_amended 7 ⟨none, some "A", some "B", some 100, none⟩
    ⟨none, none, some 100⟩ 100 100 2 le_rfl
  exact ⟨h.1 rfl, h.2.2.1 rfl, (h.2.2.2 stPending 1 baseRide rfl rfl rfl).1⟩

/-- C7 counterexample: the part_010 approve route does not
unconditionally succeed on a pending ride — a supplied driver rating of
6 fails the root schema's 1..5 bound, so `ride.save()` throws and the
request errors with the store unchanged, refuting unconditional
approval-with-driver-attachment. -/
theorem claim7_counterexample :
    (findRide stPending.rides 1).map Ride.status = some RideStatus.pending ∧
    approveRideRoute stPending 9 1 ⟨some badDriver⟩ 100 =
      (Except.error ApiError.serverError, stPending) := by
  exact ⟨rfl, rfl⟩

/-- C7 amended: on a pending ride whose approved document passes the
root schema's save-time validation (driver rating within 1..5 when
supplied, scheduleTime still strictly future, bounded locations and
reasons), the part_010 approve route succeeds, sets the status to
`approved`, records the approver and the approval timestamp, and
attaches the driver sub-record exactly when the request supplies one. -/
theorem claim7_approve_route_amended (st : SysState) (adminId rideId : Nat)
    (body : ApproveRouteBody) (now : Int) (r : Ride)
    (hfind : findRide st.rides rideId = some r)
    (hp : r.status = RideStatus.pending)
    (hvalid : rootSaveValid (approvedDocRoute r adminId body now) now = true) :
    (approveRideRoute st adminId rideId body now).fst =
      Except.ok (approvedDocRoute r adminId body now) ∧
    (approvedDocRoute r adminId body now).status = RideStatus.approved ∧
    (approvedDocRoute r adminId body now).approvedBy = some adminId ∧
    (approvedDocRoute r adminId body now).approvedAt = some now ∧
    (∀ d, body.driver = some d →
      (approvedDocRoute r adminId body now).driver = some d) ∧
    (body.driver = none → (approvedDocRoute r adminId body now).driver = r.driver) := by
  refine ⟨?_, ?_, ?_, ?_, ?_, ?_⟩
  · unfold approveRideRoute
    rw [hfind]
    simp [hp, hvalid]
  all_goals
    unfold approvedDocRoute applySaveHook
    cases hbd : body.driver <;> simp [hbd]

/-- Witness for the C7 amended theorem: the concrete pending ride is
approved with the valid driver1 attached. -/
theorem claim7_witness :
    (approveRideRoute stPending 9 1 ⟨some driver1⟩ 100).fst =
      Except.ok (approvedDocRoute baseRide 9 ⟨some driver1⟩ 100) ∧
    (approvedDocRoute baseRide 9 ⟨some driver1⟩ 100).status =
      RideStatus.approved ∧
    (approvedDocRoute baseRide 9 ⟨some driver1⟩ 100).driver = some driver1 := by
  have h := claim7_approve_route_amended stPending 9 1 ⟨some driver1⟩ 100
    baseRide rfl rfl (by decide)
  exact ⟨h.1, h.2.1, h.2.2.2.2.1 driver1 rfl⟩

/-- C8: the user-facing List endpoint is always scoped to the caller:
every returned ride belongs to the caller, the result does not depend
on any requested owner filter (the handler never reads it), and the
result is ordered newest-first by creation time. -/
theorem claim8_list_owner_scoping (callerId : Nat) (q : RideQuery)
    (rides : List Ride) :
    (∀ r ∈ getUserRides callerId q rides, r.userId = callerId) ∧
    (∀ a b : Option Nat,
      getUserRides callerId { q with userId := a } rides =
        getUserRides callerId { q with userId := b } rides) ∧
    (getUserRides callerId q rides).Pairwise
      (fun x y => y.createdAt ≤ x.createdAt) := by
  refine ⟨?_, ?_, ?_⟩
  · intro r hr
    unfold getUserRides at hr
    have hmem : r ∈ rides.filter (matchesUserQuery callerId q) :=
      List.mem_mergeSort.mp hr
    have hq : matchesUserQuery callerId q r = true := List.of_mem_filter hmem
    unfold matchesUserQuery at hq
    have := (Bool.and_eq_true _ _).mp hq
    have h1 := (Bool.and_eq_true _ _).mp this.1
    have h2 := (Bool.and_eq_true _ _).mp h1.1
    simpa using h2.1
  · intro a b
    rfl
  · unfold getUserRides
    have h := List.sorted_mergeSort
      (fun (a b c : Ride) (hab : newestFirst a b) (hbc : newestFirst b c) => by
        unfold newestFirst at *
        exact decide_eq_true (le_trans (of_decide_eq_true hbc) (of_decide_eq_true hab)))
      (fun (a b : Ride) => by
        unfold newestFirst
        rcases le_total b.createdAt a.createdAt with h | h <;> simp [h])
      (rides.filter (matchesUserQuery callerId q))
    exact h.imp (fun hab => of_decide_eq_true hab)

/-- Witness for C8: in the concrete store the returned ride belongs to
the caller, and two calls differing only in the requested owner filter
coincide. -/
theorem claim8_witness :
    baseRide.userId = 7 ∧
    getUserRides 7 ⟨none, none, none, some 3⟩ stPending.rides =
      getUserRides 7 ⟨none, none, none, some 8⟩ stPending.rides := by
  constructor
  · exact (claim8_list_owner_scoping 7 ⟨none, none, none, none⟩ stPending.rides).1
      baseRide (List.mem_mergeSort.mpr (by decide))
  · exact (claim8_list_owner_scoping 7 ⟨none, none, none, some 3⟩
      stPending.rides).2.1 (some 3) (some 8)

/-- C9: the access guard answers Unauthorized whenever the credential is
missing or malformed, maps to no user, or maps to an inactive user; and
for an authenticated caller the role check answers Forbidden exactly
when the caller's role is not among the required roles (and passes
exactly when it is). -/
theorem claim9_access_guard (users : List User) (verify : String → Option Nat)
    (hdr : Option String) (roles : List String) (u : User) :
    (extractBearerToken hdr = none →
      authenticate users verify hdr = AuthResult.unauthorized) ∧
    (∀ t, extractBearerToken hdr = some t → verify t = none →
      authenticate users verify hdr = AuthResult.unauthorized) ∧
    (∀ t uid, extractBearerToken hdr = some t → verify t = some uid →
      users.find? (fun u2 => u2.userId == uid) = none →
      authenticate users verify hdr = AuthResult.unauthorized) ∧
    (∀ t uid u2, extractBearerToken hdr = some t → verify t = some uid →
      users.find? (fun u3 => u3.userId == uid) = some u2 →
      u2.isActive = false →
      authenticate users verify hdr = AuthResult.unauthorized) ∧
    (authorize roles (some u) = AuthzResult.forbidden ↔
      roles.contains u.role = false) ∧
    (authorize roles (some u) = AuthzResult.ok ↔
      roles.contains u.role = true) := by
  refine ⟨?_, ?_, ?_, ?_, ?_, ?_⟩
  · intro h
    unfold authenticate
    rw [h]
  · intro t h1 h2
    unfold authenticate
    simp [h1, h2]
  · intro t uid h1 h2 h3
    unfold authenticate
    simp [h1, h2, h3]
  · intro t uid u2 h1 h2 h3 h4
    unfold authenticate
    simp [h1, h2, h3, h4]
  · unfold authorize
    by_cases hc : roles.contains u.role = true
    · simp [hc]
    · simp [hc]
  · unfold authorize
    by_cases hc : roles.contains u.role = true
    · simp [hc]
    · simp [hc]

/-- Witness for C9: a token the verifier rejects yields Unauthorized,
and a non-admin caller of an admin-only route gets Forbidden. -/
theorem claim9_witness :
    authenticate [⟨3, "user", true⟩]
      (fun t => if t = "good" then some 3 else none)
      (some "Bearer bad") = AuthResult.unauthorized ∧
    authorize ["admin"] (some ⟨3, "user", true⟩) = AuthzResult.forbidden := by
  have h := claim9_access_guard [⟨3, "user", true⟩]
    (fun t => if t = "good" then some 3 else none)
    (some "Bearer bad") ["admin"] ⟨3, "user", true⟩
  exact ⟨h.2.1 "bad" rfl rfl, h.2.2.2.2.1.mpr rfl⟩

/-- C10: the inner Create ignores any client-supplied userId and
estimatedFare: whenever it succeeds, the stored ride is owned by the
authenticated caller and its estimatedFare is the generated value, an
integer between 100 and 399 inclusive, no matter what the request body
contained — including bodies with a past scheduleTime, which the inner
schema accepts. -/
theorem claim10_create_overrides (callerId : Nat) (body : CreateBody)
    (fareRand : Nat) (now : Int) (newId : Nat) (r : Ride)
    (hrand : fareRand < 300)
    (hok : createRide callerId body fareRand now newId = Except.ok r) :
    r.userId = callerId ∧ 100 ≤ r.estimatedFare ∧ r.estimatedFare ≤ 399 := by
  unfold createRide rideCreate at hok
  cases hp : body.pickup with
  | none => rw [hp] at hok; exact absurd hok (by simp)
  | some p =>
    cases hd : body.drop with
    | none => rw [hp, hd] at hok; exact absurd hok (by simp)
    | some d =>
      cases hst : body.scheduleTime with
      | none => rw [hp, hd, hst] at hok; exact absurd hok (by simp)
      | some t =>
        rw [hp, hd, hst] at hok
        by_cases hv : (trimStr p != "" && trimStr d != "") = true
        · simp [hv] at hok
          subst hok
          refine ⟨rfl, ?_, ?_⟩
          all_goals simp
          all_goals omega
        · simp [hv] at hok

/-- Witness for C10: a body supplying a foreign userId 99, a fare of 5,
and a past scheduleTime is still created — owned by caller 42 with the
generated fare 107. -/
theorem claim10_witness :
    createRide 42 ⟨some 99, some "A", some "B", some 50, some 5⟩ 7 100 2 =
      Except.ok created1 ∧ created1.scheduleTime = 50 ∧
    created1.userId = 42 ∧
    100 ≤ created1.estimatedFare ∧ created1.estimatedFare ≤ 399 := by
  have hok : createRide 42 ⟨some 99, some "A", some "B", some 50, some 5⟩ 7 100 2 =
      Except.ok created1 := rfl
  have h := claim10_create_overrides 42
    ⟨some 99, some "A", some "B", some 50, some 5⟩ 7 100 2 created1 (by omega) hok
  exact ⟨hok, rfl, h⟩

end RapidoSpec
